import Mathlib

set_option maxRecDepth 10000

/-!
Shallow embedding of the `Jonahenk/recipes` pipeline
(`scripts/pipeline.py` and `scripts/telegram_handler.py`) and proofs
about its externally observable behaviour.

Python string primitives used by the scripts (`in`, `lower`, `strip`,
`rstrip`, slicing, `isalnum`) are modelled over Lean `String`/`List Char`.
`lower` and `isalnum` are modelled with their ASCII behaviour, which is
where all URLs, slugs and platform tags of this repository live.
-/

namespace Recipes

/-- Python `needle in hay` substring test, over the character lists. -/
def substrAux (pat : List Char) : List Char → Bool
  | [] => pat.isEmpty
  | c :: rest => pat.isPrefixOf (c :: rest) || substrAux pat rest

/-- Python `needle in hay` for strings. -/
def pyIn (needle hay : String) : Bool :=
  substrAux needle.data hay.data

/-- Python `s.lower()` on one character (ASCII range). -/
def pyLowerChar (c : Char) : Char :=
  if 'A' ≤ c ∧ c ≤ 'Z' then Char.ofNat (c.toNat + 32) else c

/-- Python `s.lower()` (ASCII range), character-wise. -/
def pyLower (s : String) : String :=
  ⟨s.data.map pyLowerChar⟩

/-- Python `s.strip()`: remove leading and trailing whitespace. -/
def pyStrip (s : String) : String :=
  ⟨((s.data.dropWhile Char.isWhitespace).reverse.dropWhile Char.isWhitespace).reverse⟩

/-- Python `s.rstrip('/')`: remove all trailing slash characters
(`pipeline.py` line 285 / 287). -/
def rstripSlash (s : String) : String :=
  ⟨(s.data.reverse.dropWhile (· == '/')).reverse⟩

/-- Python `s.replace(a, b)` for a single-character pattern and
single-character replacement. -/
def pyReplaceChar (a b : Char) (s : String) : String :=
  ⟨s.data.map (fun c => if c == a then b else c)⟩

/-- Python `c.isalnum()` (ASCII range). -/
def pyIsAlnum (c : Char) : Bool :=
  c.isAlpha || c.isDigit

/-- Python `s[-n:]`: the last `n` characters (all of `s` when shorter). -/
def pyLastN (n : Nat) (s : String) : String :=
  ⟨s.data.drop (s.data.length - n)⟩

/-- Split a character list on newline characters (Python `s.split('\n')`). -/
def splitLinesAux (cur : List Char) : List Char → List (List Char)
  | [] => [cur.reverse]
  | c :: rest =>
    if c == '\n' then cur.reverse :: splitLinesAux [] rest
    else splitLinesAux (c :: cur) rest

/-- Python `s.split('\n')`. -/
def pySplitLines (s : String) : List String :=
  (splitLinesAux [] s.data).map List.asString

/-- Python `s.startswith(p)`. -/
def pyStartsWith (p s : String) : Bool :=
  p.data.isPrefixOf s.data

/-- Python `s.replace(pat, "")` removing every occurrence of `pat`,
with explicit fuel (the scripts only use it on one short line). -/
def removeAllAux (pat : List Char) : Nat → List Char → List Char
  | 0, l => l
  | _ + 1, [] => []
  | fuel + 1, c :: rest =>
    if pat.isPrefixOf (c :: rest) ∧ ¬pat.isEmpty then
      removeAllAux pat fuel ((c :: rest).drop pat.length)
    else
      c :: removeAllAux pat fuel rest

/-- Python `s.replace(pat, "")`. -/
def pyRemoveAll (pat s : String) : String :=
  ⟨removeAllAux pat.data s.data.length s.data⟩

/-!
### Platform detection (`pipeline.py` lines 146-154, inside `extract_recipe`)

```python
platform = "unknown"
if "tiktok" in source_url: platform = "tiktok"
elif "instagram" in source_url: platform = "instagram"
elif "youtube" in source_url: platform = "youtube"
```
-/

/-- The platform label `extract_recipe` derives from the source URL. -/
def detectPlatform (source_url : String) : String :=
  if pyIn "tiktok" source_url then "tiktok"
  else if pyIn "instagram" source_url then "instagram"
  else if pyIn "youtube" source_url then "youtube"
  else "unknown"

/-!
### Slug derivation (`pipeline.py` lines 223-225, inside `save_to_github`)

```python
slug = recipe['title'].lower().replace(' ', '-').replace('/', '-')
slug = ''.join(c for c in slug if c.isalnum() or c == '-')
```
-/

/-- The slug `save_to_github` derives from the recipe title. -/
def slugOf (title : String) : String :=
  let s := pyReplaceChar '/' '-' (pyReplaceChar ' ' '-' (pyLower title))
  ⟨s.data.filter (fun c => pyIsAlnum c || c == '-')⟩

/-- The slug procedure as the spec words it: lower-case, spaces to
hyphens, then strip characters that are neither alphanumeric nor a
hyphen. (No slash replacement — this is the spec-side definition used
to compare against `slugOf`.) -/
def slugSpecWorded (title : String) : String :=
  let s := pyReplaceChar ' ' '-' (pyLower title)
  ⟨s.data.filter (fun c => pyIsAlnum c || c == '-')⟩

/-- The amended slug procedure: lower-case, spaces **and slashes** to
hyphens, then strip characters that are neither alphanumeric nor a
hyphen, in one character-wise pass. -/
def slugSpecAmended (title : String) : String :=
  ⟨((pyLower title).data.map
      (fun c => if c == ' ' ∨ c == '/' then '-' else c)).filter
    (fun c => pyIsAlnum c || c == '-')⟩

/-!
### Command Dispatcher allow-list (`telegram_handler.py` lines 18-21)

```python
valid_platforms = ['tiktok', 'instagram', 'youtube', 'youtu.be']
if not any(p in url.lower() for p in valid_platforms): ... sys.exit(1)
```
-/

/-- The dispatcher's platform allow-list check. -/
def handlerAccepts (url : String) : Bool :=
  ["tiktok", "instagram", "youtube", "youtu.be"].any
    (fun p => pyIn p (pyLower url))

/-!
### MD5 (`hashlib.md5`, used by `generate_color_scheme`, `pipeline.py` 199-215)

Full RFC 1321 MD5 over a byte list, with 32-bit words as `Nat` reduced
modulo `2^32`, so that `int(md5(x).hexdigest(), 16)` can be computed.
-/

/-- UTF-8 encoding of one unicode scalar value (Python `str.encode()`). -/
def utf8Char (c : Char) : List Nat :=
  let n := c.toNat
  if n < 128 then [n]
  else if n < 2048 then
    [192 + n / 64, 128 + n % 64]
  else if n < 65536 then
    [224 + n / 4096, 128 + n / 64 % 64, 128 + n % 64]
  else
    [240 + n / 262144, 128 + n / 4096 % 64, 128 + n / 64 % 64, 128 + n % 64]

/-- UTF-8 bytes of a string (Python `str.encode()`). -/
def utf8Bytes (s : String) : List Nat :=
  (s.data.map utf8Char).flatten

/-- Rotate a 32-bit word left by `n` bits. -/
def rotl32 (x n : Nat) : Nat :=
  ((x <<< n) ||| (x >>> (32 - n))) % 4294967296

/-- The 64 MD5 sine-derived constants `K[0..63]`. -/
def md5K : List Nat :=
  [0xd76aa478, 0xe8c7b756, 0x242070db, 0xc1bdceee,
   0xf57c0faf, 0x4787c62a, 0xa8304613, 0xfd469501,
   0x698098d8, 0x8b44f7af, 0xffff5bb1, 0x895cd7be,
   0x6b901122, 0xfd987193, 0xa679438e, 0x49b40821,
   0xf61e2562, 0xc040b340, 0x265e5a51, 0xe9b6c7aa,
   0xd62f105d, 0x02441453, 0xd8a1e681, 0xe7d3fbc8,
   0x21e1cde6, 0xc33707d6, 0xf4d50d87, 0x455a14ed,
   0xa9e3e905, 0xfcefa3f8, 0x676f02d9, 0x8d2a4c8a,
   0xfffa3942, 0x8771f681, 0x6d9d6122, 0xfde5380c,
   0xa4beea44, 0x4bdecfa9, 0xf6bb4b60, 0xbebfbc70,
   0x289b7ec6, 0xeaa127fa, 0xd4ef3085, 0x04881d05,
   0xd9d4d039, 0xe6db99e5, 0x1fa27cf8, 0xc4ac5665,
   0xf4292244, 0x432aff97, 0xab9423a7, 0xfc93a039,
   0x655b59c3, 0x8f0ccc92, 0xffeff47d, 0x85845dd1,
   0x6fa87e4f, 0xfe2ce6e0, 0xa3014314, 0x4e0811a1,
   0xf7537e82, 0xbd3af235, 0x2ad7d2bb, 0xeb86d391]

/-- The 64 MD5 per-round left-rotation amounts `s[0..63]`. -/
def md5S : List Nat :=
  [7, 12, 17, 22, 7, 12, 17, 22, 7, 12, 17, 22, 7, 12, 17, 22,
   5, 9, 14, 20, 5, 9, 14, 20, 5, 9, 14, 20, 5, 9, 14, 20,
   4, 11, 16, 23, 4, 11, 16, 23, 4, 11, 16, 23, 4, 11, 16, 23,
   6, 10, 15, 21, 6, 10, 15, 21, 6, 10, 15, 21, 6, 10, 15, 21]

/-- Little-endian 32-bit word `g` of a 64-byte chunk. -/
def leWord (chunk : List Nat) (g : Nat) : Nat :=
  chunk.getD (4 * g) 0 + 256 * chunk.getD (4 * g + 1) 0 +
    65536 * chunk.getD (4 * g + 2) 0 + 16777216 * chunk.getD (4 * g + 3) 0

/-- One MD5 round on state `(a, b, c, d)`. -/
def md5Round (chunk : List Nat) (st : Nat × Nat × Nat × Nat) (i : Nat) :
    Nat × Nat × Nat × Nat :=
  let (a, b, c, d) := st
  let f :=
    if i < 16 then (b &&& c) ||| ((b ^^^ 4294967295) &&& d)
    else if i < 32 then (d &&& b) ||| ((d ^^^ 4294967295) &&& c)
    else if i < 48 then b ^^^ c ^^^ d
    else c ^^^ (b ||| (d ^^^ 4294967295))
  let g :=
    if i < 16 then i
    else if i < 32 then (5 * i + 1) % 16
    else if i < 48 then (3 * i + 5) % 16
    else (7 * i) % 16
  let tmp := (f + a + md5K.getD i 0 + leWord chunk g) % 4294967296
  (d, (b + rotl32 tmp (md5S.getD i 0)) % 4294967296, b, c)

/-- MD5 compression of one 64-byte chunk. -/
def md5ProcessChunk (st : Nat × Nat × Nat × Nat) (chunk : List Nat) :
    Nat × Nat × Nat × Nat :=
  let r := (List.range 64).foldl (md5Round chunk) st
  ((st.1 + r.1) % 4294967296, (st.2.1 + r.2.1) % 4294967296,
   (st.2.2.1 + r.2.2.1) % 4294967296, (st.2.2.2 + r.2.2.2) % 4294967296)

/-- 64-bit little-endian byte encoding. -/
def le8 (n : Nat) : List Nat :=
  [n % 256, n / 256 % 256, n / 65536 % 256, n / 16777216 % 256,
   n / 4294967296 % 256, n / 1099511627776 % 256,
   n / 281474976710656 % 256, n / 72057594037927936 % 256]

/-- 32-bit little-endian byte encoding. -/
def le4 (n : Nat) : List Nat :=
  [n % 256, n / 256 % 256, n / 65536 % 256, n / 16777216 % 256]

/-- MD5 padding: `0x80`, zeros to 56 mod 64, then the bit length as a
little-endian 64-bit value. -/
def md5Pad (msg : List Nat) : List Nat :=
  msg ++ [128] ++ List.replicate ((119 - msg.length % 64) % 64) 0 ++
    le8 ((msg.length * 8) % 18446744073709551616)

/-- Split a byte list into 64-byte chunks (fuel-driven for structural
recursion; called with `fuel = l.length`). -/
def chunks64 : Nat → List Nat → List (List Nat)
  | 0, _ => []
  | _ + 1, [] => []
  | fuel + 1, l => l.take 64 :: chunks64 fuel (l.drop 64)

/-- The 16 MD5 digest bytes of a byte message. -/
def md5Bytes (msg : List Nat) : List Nat :=
  let padded := md5Pad msg
  let st := (chunks64 padded.length padded).foldl md5ProcessChunk
    (1732584193, 4023233417, 2562383102, 271733878)
  le4 st.1 ++ le4 st.2.1 ++ le4 st.2.2.1 ++ le4 st.2.2.2

/-!
### Color scheme (`pipeline.py` lines 199-215, `generate_color_scheme`)
-/

/-- `int(hashlib.md5(title.encode()).hexdigest(), 16)`
(`pipeline.py` line 204): the digest bytes read as one big-endian
hexadecimal integer. -/
def hashVal (title : String) : Nat :=
  (md5Bytes (utf8Bytes title)).foldl (fun acc b => acc * 256 + b) 0

/-- `hue = hash_val % 360` (`pipeline.py` line 207). -/
def hueOf (title : String) : Nat :=
  hashVal title % 360

/-- The four derived color strings. -/
structure ColorScheme where
  primary : String
  secondary : String
  accent : String
  gradient : String
deriving DecidableEq, Repr

/-- `generate_color_scheme` (`pipeline.py` lines 199-215). -/
def generate_color_scheme (title : String) : ColorScheme :=
  let hue := hueOf title
  { primary := "hsl(" ++ toString hue ++ ", 80%, 55%)"
    secondary := "hsl(" ++ toString ((hue + 30) % 360) ++ ", 70%, 60%)"
    accent := "hsl(" ++ toString ((hue + 180) % 360) ++ ", 75%, 50%)"
    gradient := "linear-gradient(135deg, hsl(" ++ toString hue ++
      ", 80%, 55%), hsl(" ++ toString ((hue + 40) % 360) ++ ", 70%, 60%))" }

/-!
### Data model

The parts of a recipe record and of the `data/recipes.json` index that
the scripts read or write.
-/

/-- `recipe['source']`. -/
structure Source where
  url : String
  platform : String
  creator : String
deriving DecidableEq, Repr

/-- `recipe['metadata']`. -/
structure Metadata where
  time : String
  difficulty : String
  tags : List String
deriving DecidableEq, Repr

/-- One element of `recipe['ingredients']`. -/
structure Ingredient where
  item : String
  amount : Option String
  prep : Option String
  note : Option String
deriving DecidableEq, Repr

/-- The recipe record as parsed from the language-model response. -/
structure Recipe where
  title : String
  source : Source
  metadata : Metadata
  ingredients : List Ingredient
  instructions : List String
  notes : String
deriving DecidableEq, Repr

/-- One entry of the index `data/recipes.json` (`index['recipes']`),
the reduced projection appended by `save_to_github`. -/
structure IndexEntry where
  title : String
  source : Source
  metadata : Metadata
  colors : ColorScheme
  thumbnail : Option String
deriving DecidableEq, Repr

/-- Observable side effects of a pipeline run: API calls, sleeps, file
writes, external tool invocations, git commands. -/
inductive Ev
  | dlAttempt (i : Nat)
  | sleep (secs : Nat)
  | mediaWrite (file : String)
  | ffmpegAudio
  | ffmpegThumb
  | whisperRun
  | geminiCall (platform : String)
  | copyThumb (file : String)
  | writeRecipeFile (file : String)
  | writeIndex
  | gitCmd (cmd : String)
deriving DecidableEq, Repr

/-!
### Download stage (`pipeline.py` lines 32-85, `download_video`)

The Cobalt backend's behaviour on attempt `i` is a parameter: either a
parsed JSON response with some status (followed by a successful media
fetch when the status is `"tunnel"`), or an exception raised during the
attempt.
-/

/-- Behaviour of one download attempt against the backend. -/
inductive DlResp
  | resp (status url filename : String)
  | exc (msg : String)
deriving DecidableEq, Repr

/-- The `for attempt in range(max_retries)` loop of `download_video`,
with `fuel` the number of remaining iterations (initially
`max_retries`, so `attempt = max_retries - fuel` throughout). -/
def dlGo (resp : Nat → DlResp) (max_retries attempt fuel : Nat) :
    Option String × List Ev :=
  match fuel with
  | 0 => (none, [])
  | fuel + 1 =>
    match resp attempt with
    | .resp status _ _ =>
      if status != "tunnel" then
        if attempt < max_retries - 1 then
          let r := dlGo resp max_retries (attempt + 1) fuel
          (r.1, Ev.dlAttempt attempt :: Ev.sleep 5 :: r.2)
        else (none, [Ev.dlAttempt attempt])
      else (some "video.mp4", [Ev.dlAttempt attempt, Ev.mediaWrite "video.mp4"])
    | .exc _ =>
      if attempt < max_retries - 1 then
        let r := dlGo resp max_retries (attempt + 1) fuel
        (r.1, Ev.dlAttempt attempt :: Ev.sleep 5 :: r.2)
      else (none, [Ev.dlAttempt attempt])

/-- `download_video` (`pipeline.py` lines 32-85): returns the local
media path on success, `none` after exhausting retries, together with
the attempt/sleep/write events. -/
def download_video (resp : Nat → DlResp) (max_retries : Nat := 3) :
    Option String × List Ev :=
  dlGo resp max_retries 0 max_retries

/-!
### Publish stage (`pipeline.py` lines 217-269, `save_to_github`)
-/

/-- Result of `save_to_github`: the rewritten index, the side effects,
and the returned site URL. -/
structure SaveResult where
  index : List IndexEntry
  events : List Ev
  siteUrl : String
deriving DecidableEq, Repr

/-- `save_to_github` (`pipeline.py` lines 217-269). The duplicate
re-check on line 247 compares source URLs by **exact** string equality
(`r['source']['url'] == recipe['source']['url']`). -/
def save_to_github (recipe : Recipe) (thumbnail_path : Option String)
    (index : List IndexEntry) : SaveResult :=
  let slug := slugOf recipe.title
  let colors := generate_color_scheme recipe.title
  let thumbField : Option String :=
    match thumbnail_path with
    | some _ => some ("recipes/" ++ slug ++ ".jpg")
    | none => none
  let thumbEvs : List Ev :=
    match thumbnail_path with
    | some _ => [Ev.copyThumb ("recipes/" ++ slug ++ ".jpg")]
    | none => []
  let existing := index.filter (fun r => r.source.url == recipe.source.url)
  let step :=
    if existing.isEmpty then
      (index ++ [{ title := recipe.title, source := recipe.source,
                   metadata := recipe.metadata, colors := colors,
                   thumbnail := thumbField }], [Ev.writeIndex])
    else (index, ([] : List Ev))
  { index := step.1
    events := thumbEvs ++ [Ev.writeRecipeFile (slug ++ ".json")] ++ step.2 ++
      [Ev.gitCmd "git add -A",
       Ev.gitCmd ("git commit -m \"Add recipe: " ++ recipe.title ++ "\""),
       Ev.gitCmd "git push origin main"]
    siteUrl := "https://jonahenk.github.io/recipes/" }

/-!
### Pipeline `main` (`pipeline.py` lines 271-349)

External collaborators (environment variables, download backend,
transcoder, transcriber, language model) are parameters of an `Env`.
-/

/-- The external world a pipeline run interacts with. -/
structure Env where
  index : List IndexEntry
  geminiApiKey : Option String
  googleApiKey : Option String
  dlResp : Nat → DlResp
  audioOk : Bool
  thumbOk : Bool
  transcription : Option String
  extracted : Option Recipe

/-- Python truthiness of `os.environ.get(...)`: unset (`None`) and the
empty string are falsy. -/
def truthyStr : Option String → Bool
  | none => false
  | some s => !(s == "")

/-- `os.environ.get('GEMINI_API_KEY') or os.environ.get('GOOGLE_API_KEY')`
(`pipeline.py` line 293). -/
def effGeminiKey (e : Env) : Option String :=
  if truthyStr e.geminiApiKey then e.geminiApiKey else e.googleApiKey

/-- How a run of `main` ends. `usageError` and `missingKey` are the two
`sys.exit(1)` paths; every other outcome lets `main` return, so the
process exits 0. -/
inductive Outcome
  | usageError
  | alreadyExists (title : String)
  | missingKey
  | downloadFailed
  | audioFailed
  | transcribeFailed
  | extractFailed
  | success (recipe : Recipe)
deriving DecidableEq, Repr

/-- Process exit status for each outcome of `main`. -/
def exitCode : Outcome → Nat
  | .usageError => 1
  | .missingKey => 1
  | _ => 0

/-- Whether an outcome is the duplicate short-circuit notice. -/
def isAlreadyExists : Outcome → Bool
  | .alreadyExists _ => true
  | _ => false

/-- Result of one pipeline run: outcome, final index, side effects. -/
structure RunResult where
  outcome : Outcome
  index : List IndexEntry
  events : List Ev
deriving DecidableEq, Repr

/-- `main` of `pipeline.py` (lines 271-349). `argv` is `sys.argv[1:]`. -/
def pipelineMain (env : Env) (argv : List String) : RunResult :=
  match argv with
  | [] => ⟨.usageError, env.index, []⟩
  | arg1 :: _ =>
    let video_url := pyStrip arg1
    let normalized_url := rstripSlash video_url
    match env.index.find? (fun e => rstripSlash e.source.url == normalized_url) with
    | some e => ⟨.alreadyExists e.title, env.index, []⟩
    | none =>
      if truthyStr (effGeminiKey env) = false then ⟨.missingKey, env.index, []⟩
      else
        let dl := download_video env.dlResp
        match dl.1 with
        | none => ⟨.downloadFailed, env.index, dl.2⟩
        | some _ =>
          if env.audioOk = false then
            ⟨.audioFailed, env.index, dl.2 ++ [Ev.ffmpegAudio]⟩
          else
            let thumbnail_path := if env.thumbOk then some "thumbnail.jpg" else none
            let evs2 := dl.2 ++ [Ev.ffmpegAudio, Ev.ffmpegThumb]
            match env.transcription with
            | none => ⟨.transcribeFailed, env.index, evs2 ++ [Ev.whisperRun]⟩
            | some t =>
              if t == "" then ⟨.transcribeFailed, env.index, evs2 ++ [Ev.whisperRun]⟩
              else
                match env.extracted with
                | none => ⟨.extractFailed, env.index,
                    evs2 ++ [Ev.whisperRun, Ev.geminiCall (detectPlatform video_url)]⟩
                | some recipe =>
                  let sr := save_to_github recipe thumbnail_path env.index
                  ⟨.success recipe, sr.index,
                    evs2 ++ [Ev.whisperRun, Ev.geminiCall (detectPlatform video_url)]
                      ++ sr.events⟩

/-- Number of index entries whose source URL matches `url` up to
trailing-slash normalization. -/
def countMatching (index : List IndexEntry) (url : String) : Nat :=
  (index.filter (fun e => rstripSlash e.source.url == rstripSlash url)).length

/-!
### Command Dispatcher (`telegram_handler.py`)
-/

/-- Result of `subprocess.run(["python3", pipeline, url], ...)`. -/
structure SubResult where
  returncode : Nat
  stdout : String
  stderr : String
deriving DecidableEq, Repr

/-- Exit status and printed lines of one dispatcher run. -/
structure HandlerResult where
  exitCode : Nat
  prints : List String
deriving DecidableEq, Repr

/-- The success-branch scan (`telegram_handler.py` lines 34-40): the
first stdout line starting with `Recipe:` yields the two success
prints. -/
def recipeLinePrints (stdout : String) : List String :=
  match (pySplitLines stdout).find? (fun l => pyStartsWith "Recipe:" l) with
  | some line =>
    let title := pyStrip (pyRemoveAll "Recipe:" line)
    ["✅ Added recipe: **" ++ title ++ "**",
     "🔗 https://jonahenk.github.io/recipes/"]
  | none => []

/-- `main` of `telegram_handler.py`. `argv` is `sys.argv[1:]`; `sub`
gives the pipeline subprocess's result for a URL. After the allow-list
check, the function always falls through to a normal return, so the
process exit status is 0 for both subprocess outcomes. -/
def handlerMain (argv : List String) (sub : String → SubResult) : HandlerResult :=
  match argv with
  | [] => ⟨1, ["Usage: /recipe <video-url>"]⟩
  | url :: _ =>
    if !handlerAccepts url then
      ⟨1, ["⚠️ Unsupported platform. Supported: tiktok, instagram, youtube, youtu.be"]⟩
    else
      let r := sub url
      if r.returncode == 0 then ⟨0, recipeLinePrints r.stdout⟩
      else ⟨0, ["❌ Failed to process recipe", pyLastN 500 r.stderr]⟩

/-!
### Concrete test fixtures

Used by witnesses and counterexamples below.
-/

/-- The spec's end-to-end example recipe (`Test Soup`). -/
def sampleRecipe : Recipe :=
  { title := "Test Soup",
    source := { url := "https://tiktok.com/x", platform := "tiktok",
                creator := "@chef" },
    metadata := { time := "20 minutes", difficulty := "easy", tags := ["soup"] },
    ingredients := [{ item := "water", amount := some "1L", prep := none,
                      note := none }],
    instructions := ["boil water"], notes := "" }

/-- A world in which every pipeline stage succeeds. -/
def sampleEnv : Env :=
  { index := [], geminiApiKey := some "k", googleApiKey := none,
    dlResp := fun _ => DlResp.resp "tunnel" "https://media" "clip.mp4",
    audioOk := true, thumbOk := true,
    transcription := some "boil water and serve",
    extracted := some sampleRecipe }

/-- An index entry whose source URL carries no trailing slash. -/
def sampleEntry : IndexEntry :=
  { title := "Old Soup",
    source := { url := "https://tiktok.com/x", platform := "tiktok",
                creator := "@chef" },
    metadata := { time := "5 minutes", difficulty := "easy", tags := [] },
    colors := { primary := "p", secondary := "s", accent := "a",
                gradient := "g" },
    thumbnail := none }

/-- An index entry unrelated to the sample URLs. -/
def otherEntry : IndexEntry :=
  { title := "Unrelated",
    source := { url := "https://instagram.com/reel/9", platform := "instagram",
                creator := "@other" },
    metadata := { time := "1 minute", difficulty := "hard", tags := [] },
    colors := { primary := "p", secondary := "s", accent := "a",
                gradient := "g" },
    thumbnail := none }

/-- The successful world with both credential variables unset. -/
def noKeyEnv : Env :=
  { sampleEnv with geminiApiKey := none, googleApiKey := none }

/-- A recipe whose source URL differs from `sampleEntry`'s only by a
trailing slash. -/
def slashRecipe : Recipe :=
  { title := "New Soup",
    source := { url := "https://tiktok.com/x/", platform := "tiktok",
                creator := "@chef" },
    metadata := { time := "10 minutes", difficulty := "easy", tags := [] },
    ingredients := [], instructions := [], notes := "" }

/-!
## Supporting lemmas
-/

/-- `substrAux` decides list infixhood. -/
theorem substrAux_iff (pat : List Char) (hay : List Char) :
    substrAux pat hay = true ↔ pat <:+: hay := by
  induction hay with
  | nil =>
    simp [substrAux, List.isEmpty_iff, List.infix_nil]
  | cons c rest ih =>
    simp [substrAux, List.infix_cons_iff, ih]

/-- `pyIn` decides substring containment. -/
theorem pyIn_iff (needle hay : String) :
    pyIn needle hay = true ↔ needle.data <:+: hay.data := by
  exact substrAux_iff needle.data hay.data

/-- A lowercase-invariant needle survives `pyLower` of the haystack. -/
theorem pyIn_pyLower_of_pyIn (needle hay : String)
    (hfix : needle.data.map pyLowerChar = needle.data)
    (h : pyIn needle hay = true) : pyIn needle (pyLower hay) = true := by
  rw [pyIn_iff] at h ⊢
  have := List.IsInfix.map pyLowerChar h
  rwa [hfix] at this

/-- A normalized-URL match in the index makes `main` short-circuit:
`already exists` outcome, untouched index, no side effects. -/
theorem pipelineMain_dup (env : Env) (url : String)
    (h : ∃ e ∈ env.index,
      rstripSlash e.source.url = rstripSlash (pyStrip url)) :
    (∃ t, (pipelineMain env [url]).outcome = Outcome.alreadyExists t) ∧
    (pipelineMain env [url]).index = env.index ∧
    (pipelineMain env [url]).events = [] := by
  obtain ⟨e, he, hnorm⟩ := h
  have hsome : (env.index.find?
      (fun e => rstripSlash e.source.url == rstripSlash (pyStrip url))).isSome := by
    rw [List.find?_isSome]
    exact ⟨e, he, by simp [hnorm]⟩
  obtain ⟨e', hfind⟩ := Option.isSome_iff_exists.mp hsome
  refine ⟨⟨e'.title, ?_⟩, ?_, ?_⟩ <;> simp [pipelineMain, hfind]

/-- Inversion of a successful run: the duplicate pre-check found
nothing, the language-model result is the returned recipe, and the
final index is the one `save_to_github` wrote. -/
theorem pipelineMain_success_inv (env : Env) (url : String) (recipe : Recipe)
    (h : (pipelineMain env [url]).outcome = Outcome.success recipe) :
    env.extracted = some recipe ∧
    env.index.find?
      (fun e => rstripSlash e.source.url == rstripSlash (pyStrip url)) = none ∧
    (pipelineMain env [url]).index =
      (save_to_github recipe (if env.thumbOk then some "thumbnail.jpg" else none)
        env.index).index := by
  simp only [pipelineMain] at h ⊢
  split at h
  · simp at h
  · split at h
    · simp at h
    · split at h
      · simp at h
      · split at h
        · simp at h
        · split at h
          · simp at h
          · split at h
            · simp at h
            · split at h
              · simp at h
              · simp_all

/-- When no index entry carries exactly the recipe's source URL,
`save_to_github` appends the reduced projection of the recipe. -/
theorem save_to_github_index_of_absent (recipe : Recipe) (tp : Option String)
    (index : List IndexEntry)
    (h : ∀ e ∈ index, e.source.url ≠ recipe.source.url) :
    (save_to_github recipe tp index).index =
      index ++ [{ title := recipe.title, source := recipe.source,
                  metadata := recipe.metadata,
                  colors := generate_color_scheme recipe.title,
                  thumbnail := tp.map
                    (fun _ => "recipes/" ++ slugOf recipe.title ++ ".jpg") }] := by
  have hf : index.filter (fun r => r.source.url == recipe.source.url) = [] := by
    rw [List.filter_eq_nil_iff]
    intro e he
    simpa using h e he
  cases tp <;> simp [save_to_github, hf]

/-- When some index entry carries exactly the recipe's source URL,
`save_to_github` leaves the index unchanged. -/
theorem save_to_github_index_of_present (recipe : Recipe) (tp : Option String)
    (index : List IndexEntry)
    (h : ∃ e ∈ index, e.source.url = recipe.source.url) :
    (save_to_github recipe tp index).index = index := by
  obtain ⟨e, he, heq⟩ := h
  have hf : (index.filter (fun r => r.source.url == recipe.source.url)).isEmpty
      = false := by
    rw [List.isEmpty_eq_false]
    intro hnil
    have : e ∈ index.filter (fun r => r.source.url == recipe.source.url) := by
      simp [List.mem_filter, he, heq]
    simp [hnil] at this
  simp [save_to_github, hf]

/-!
## Claims
-/

/-- C1 (confirmed): the duplicate pre-check makes the pipeline
idempotent on the source URL. First part: whenever some index entry's
trailing-slash-normalized source URL equals the normalized submitted
URL, the run short-circuits with the `already exists` notice, performs
no download/transcode/transcribe/extract/publish work (no side-effect
events at all), and leaves the index unchanged. Second part: starting
from an index with no normalized match, a successful run whose recipe
echoes the submitted source URL yields exactly one matching index
entry, and a second invocation with the same URL — with or without
trailing slashes — short-circuits and changes nothing. -/
theorem c1_idempotence :
    (∀ (env : Env) (url : String),
      (∃ e ∈ env.index,
        rstripSlash e.source.url = rstripSlash (pyStrip url)) →
      isAlreadyExists (pipelineMain env [url]).outcome = true ∧
      (pipelineMain env [url]).index = env.index ∧
      (pipelineMain env [url]).events = []) ∧
    (∀ (env : Env) (url url₂ : String) (recipe : Recipe),
      countMatching env.index (pyStrip url) = 0 →
      (pipelineMain env [url]).outcome = Outcome.success recipe →
      rstripSlash recipe.source.url = rstripSlash (pyStrip url) →
      rstripSlash (pyStrip url₂) = rstripSlash (pyStrip url) →
      countMatching (pipelineMain env [url]).index (pyStrip url) = 1 ∧
      isAlreadyExists
        (pipelineMain { env with index := (pipelineMain env [url]).index }
          [url₂]).outcome = true ∧
      (pipelineMain { env with index := (pipelineMain env [url]).index }
        [url₂]).index = (pipelineMain env [url]).index ∧
      (pipelineMain { env with index := (pipelineMain env [url]).index }
        [url₂]).events = []) := by
  constructor
  · intro env url h
    obtain ⟨⟨t, ht⟩, hidx, hev⟩ := pipelineMain_dup env url h
    exact ⟨by rw [ht]; rfl, hidx, hev⟩
  · intro env url url₂ recipe hcount hsucc hecho hurl₂
    obtain ⟨hex, hfind, hidx⟩ := pipelineMain_success_inv env url recipe hsucc
    have hnone : ∀ e ∈ env.index,
        rstripSlash e.source.url ≠ rstripSlash (pyStrip url) := by
      intro e he heq
      have hnil : env.index.filter
          (fun e => rstripSlash e.source.url == rstripSlash (pyStrip url)) = [] := by
        have := hcount
        rwa [countMatching, List.length_eq_zero] at this
      have hmem : e ∈ env.index.filter
          (fun e => rstripSlash e.source.url == rstripSlash (pyStrip url)) := by
        simp [List.mem_filter, he, heq]
      rw [hnil] at hmem
      simp at hmem
    have habs : ∀ e ∈ env.index, e.source.url ≠ recipe.source.url := by
      intro e he heq
      exact hnone e he (by rw [heq]; exact hecho)
    have hsave := save_to_github_index_of_absent recipe
      (if env.thumbOk then some "thumbnail.jpg" else none) env.index habs
    rw [hsave] at hidx
    have hentry : rstripSlash
        ({ title := recipe.title, source := recipe.source,
           metadata := recipe.metadata,
           colors := generate_color_scheme recipe.title,
           thumbnail := (if env.thumbOk then some "thumbnail.jpg" else none).map
             (fun _ => "recipes/" ++ slugOf recipe.title ++ ".jpg") }
          : IndexEntry).source.url = rstripSlash (pyStrip url) := hecho
    refine ⟨?_, ?_⟩
    · rw [hidx, countMatching, List.filter_append]
      have h1 : env.index.filter
          (fun e => rstripSlash e.source.url == rstripSlash (pyStrip url)) = [] := by
        rw [List.filter_eq_nil_iff]
        intro e he
        simpa using hnone e he
      rw [h1]
      simp [hentry]
    · have hmem2 :
        ({ title := recipe.title, source := recipe.source,
           metadata := recipe.metadata,
           colors := generate_color_scheme recipe.title,
           thumbnail := (if env.thumbOk then some "thumbnail.jpg" else none).map
             (fun _ => "recipes/" ++ slugOf recipe.title ++ ".jpg") }
          : IndexEntry) ∈ (pipelineMain env [url]).index := by
        rw [hidx]
        exact List.mem_append_right _ (List.mem_singleton_self _)
      have hdup2 := pipelineMain_dup
        { env with index := (pipelineMain env [url]).index } url₂
        ⟨_, hmem2, by rw [hurl₂]; exact hentry⟩
      obtain ⟨⟨t, ht⟩, hidx2, hev2⟩ := hdup2
      exact ⟨by rw [ht]; rfl, hidx2, hev2⟩

/-- C1 witness: both parts at concrete inputs — a pre-populated index
short-circuits a slash-variant resubmission, and a fresh successful run
for `https://tiktok.com/x` followed by a resubmission of
`https://tiktok.com/x/` leaves exactly one matching entry. -/
theorem c1_witness :
    (isAlreadyExists (pipelineMain { sampleEnv with index := [sampleEntry] }
        ["https://tiktok.com/x/"]).outcome = true ∧
      (pipelineMain { sampleEnv with index := [sampleEntry] }
        ["https://tiktok.com/x/"]).index =
        ({ sampleEnv with index := [sampleEntry] } : Env).index ∧
      (pipelineMain { sampleEnv with index := [sampleEntry] }
        ["https://tiktok.com/x/"]).events = []) ∧
    (countMatching (pipelineMain sampleEnv ["https://tiktok.com/x"]).index
        (pyStrip "https://tiktok.com/x") = 1 ∧
      isAlreadyExists (pipelineMain
        { sampleEnv with
          index := (pipelineMain sampleEnv ["https://tiktok.com/x"]).index }
        ["https://tiktok.com/x/"]).outcome = true ∧
      (pipelineMain
        { sampleEnv with
          index := (pipelineMain sampleEnv ["https://tiktok.com/x"]).index }
        ["https://tiktok.com/x/"]).index =
        (pipelineMain sampleEnv ["https://tiktok.com/x"]).index ∧
      (pipelineMain
        { sampleEnv with
          index := (pipelineMain sampleEnv ["https://tiktok.com/x"]).index }
        ["https://tiktok.com/x/"]).events = []) :=
  ⟨c1_idempotence.1 { sampleEnv with index := [sampleEntry] }
      "https://tiktok.com/x/" ⟨sampleEntry, by decide, by decide⟩,
   c1_idempotence.2 sampleEnv "https://tiktok.com/x" "https://tiktok.com/x/"
      sampleRecipe (by decide) (by decide) (by decide) (by decide)⟩

/-- C2 counterexample: `slashRecipe`'s source URL differs from
`sampleEntry`'s only by a trailing slash; the stage-1 normalization
equates them, yet `save_to_github` appends a second index entry — the
re-check on `pipeline.py` line 247 compares URLs with `==`, not with
`.rstrip('/')`. -/
theorem c2_counterexample :
    rstripSlash slashRecipe.source.url = rstripSlash sampleEntry.source.url ∧
    slashRecipe.source.url ≠ sampleEntry.source.url ∧
    (save_to_github slashRecipe none [sampleEntry]).index.length = 2 := by
  decide

/-- C2 (amended): the publish-stage re-check uses **exact** string
equality on the source URL, not the stage-1 trailing-slash
normalization: the index is left unchanged exactly when some existing
entry's URL is string-equal to the recipe's, and a recipe whose source
URL merely normalizes to an existing entry's (e.g. differs by a
trailing slash) is appended as a second entry. -/
theorem c2_publish_recheck (recipe : Recipe) (tp : Option String)
    (index : List IndexEntry) :
    ((∃ e ∈ index, e.source.url = recipe.source.url) →
      (save_to_github recipe tp index).index = index) ∧
    ((∀ e ∈ index, e.source.url ≠ recipe.source.url) →
      (save_to_github recipe tp index).index ≠ index) := by
  constructor
  · intro h
    exact save_to_github_index_of_present recipe tp index h
  · intro h heq
    rw [save_to_github_index_of_absent recipe tp index h] at heq
    have hlen := congrArg List.length heq
    simp at hlen

/-- C2 witness: the exact-match branch keeps the index, and the
normalized-only match appends. -/
theorem c2_witness :
    (save_to_github sampleRecipe none [sampleEntry]).index = [sampleEntry] ∧
    (save_to_github slashRecipe none [sampleEntry]).index ≠ [sampleEntry] :=
  ⟨(c2_publish_recheck sampleRecipe none [sampleEntry]).1
      ⟨sampleEntry, by decide, rfl⟩,
   (c2_publish_recheck slashRecipe none [sampleEntry]).2 (by decide)⟩

/-- C3 counterexample: the URL `https://TIKTOK.com/video` contains
`tiktok.com` case-insensitively, yet `extract_recipe` labels it
`unknown`, not `tiktok` — the detection on `pipeline.py` lines 149-154
is case-sensitive (`"tiktok" in source_url` without `.lower()`). -/
theorem c3_counterexample :
    pyIn "tiktok.com" (pyLower "https://TIKTOK.com/video") = true ∧
    detectPlatform "https://TIKTOK.com/video" ≠ "tiktok" ∧
    detectPlatform "https://TIKTOK.com/video" = "unknown" := by
  decide

/-- C3 (amended): platform detection in the structured-extraction stage
is **case-sensitive** substring matching: every URL containing the
lowercase substring `tiktok` is labelled `tiktok`, and every URL
containing none of the lowercase substrings `tiktok`/`instagram`/
`youtube` is labelled `unknown`. -/
theorem c3_platform_detection (url : String) :
    (pyIn "tiktok" url = true → detectPlatform url = "tiktok") ∧
    (pyIn "tiktok" url = false → pyIn "instagram" url = false →
      pyIn "youtube" url = false → detectPlatform url = "unknown") := by
  constructor
  · intro h
    simp [detectPlatform, h]
  · intro h1 h2 h3
    simp [detectPlatform, h1, h2, h3]

/-- C3 witness: detection at two concrete URLs. -/
theorem c3_witness :
    detectPlatform "https://tiktok.com/@chef/video/1" = "tiktok" ∧
    detectPlatform "https://example.com/v" = "unknown" :=
  ⟨(c3_platform_detection "https://tiktok.com/@chef/video/1").1 (by decide),
   (c3_platform_detection "https://example.com/v").2 (by decide) (by decide) (by decide)⟩

/-- C6 (confirmed): the color scheme is a pure function of the title —
any two computations of `generate_color_scheme` on the same title agree
on primary, secondary, accent and gradient. -/
theorem c6_color_determinism (t : String) (c₁ c₂ : ColorScheme)
    (h₁ : c₁ = generate_color_scheme t) (h₂ : c₂ = generate_color_scheme t) :
    c₁.primary = c₂.primary ∧ c₁.secondary = c₂.secondary ∧
    c₁.accent = c₂.accent ∧ c₁.gradient = c₂.gradient := by
  subst h₁ h₂
  exact ⟨rfl, rfl, rfl, rfl⟩

/-- C6 witness: determinism at the concrete title `Test Soup`. -/
theorem c6_witness :
    (generate_color_scheme "Test Soup").primary =
        (generate_color_scheme "Test Soup").primary ∧
    (generate_color_scheme "Test Soup").secondary =
        (generate_color_scheme "Test Soup").secondary ∧
    (generate_color_scheme "Test Soup").accent =
        (generate_color_scheme "Test Soup").accent ∧
    (generate_color_scheme "Test Soup").gradient =
        (generate_color_scheme "Test Soup").gradient :=
  c6_color_determinism "Test Soup" _ _ rfl rfl

/-- C7 counterexample: the distinct titles `Spicy Garlic Noodles` and
`Pesto Pasta` have different MD5 hashes, yet the same hue (108), and
hence identical entire color schemes — hue equality does not require a
hash collision, only congruence of the hashes modulo 360. -/
theorem c7_counterexample :
    ("Spicy Garlic Noodles" : String) ≠ "Pesto Pasta" ∧
    hashVal "Spicy Garlic Noodles" ≠ hashVal "Pesto Pasta" ∧
    hueOf "Spicy Garlic Noodles" = hueOf "Pesto Pasta" ∧
    generate_color_scheme "Spicy Garlic Noodles" =
      generate_color_scheme "Pesto Pasta" := by
  decide

/-- C7 (amended): for every pair of titles, the derived hue values
differ unless the titles' hashes are congruent modulo 360 (a strictly
weaker condition than a hash collision). -/
theorem c7_hue_separation (t₁ t₂ : String)
    (h : hashVal t₁ % 360 ≠ hashVal t₂ % 360) : hueOf t₁ ≠ hueOf t₂ := by
  simpa [hueOf] using h

/-- C7 witness: two titles whose hashes differ modulo 360 get distinct
hues. -/
theorem c7_witness : hueOf "Test Soup" ≠ hueOf "Pesto Pasta" :=
  c7_hue_separation "Test Soup" "Pesto Pasta" (by decide)

/-- C8 counterexample: the claim omits the slash replacement on
`pipeline.py` line 224 (`.replace('/', '-')`): on the title `A/B` the
code produces `a-b`, while the claim's procedure (lower-case, spaces to
hyphens, strip non-alphanumeric-non-hyphen) produces `ab`. -/
theorem c8_counterexample :
    slugOf "A/B" = "a-b" ∧ slugSpecWorded "A/B" = "ab" ∧
    slugOf "A/B" ≠ slugSpecWorded "A/B" := by
  decide

/-- C8 (amended): the slug is produced by lower-casing, replacing
spaces **and slashes** with hyphens, then stripping every character
that is not alphanumeric or a hyphen; `"Spicy Garlic Noodles!"` yields
`spicy-garlic-noodles`. -/
theorem c8_slug_generation :
    (∀ t : String, slugOf t = slugSpecAmended t) ∧
    slugOf "Spicy Garlic Noodles!" = "spicy-garlic-noodles" := by
  constructor
  · intro t
    have hfun : ∀ c : Char,
        (if (if c == ' ' then '-' else c) == '/' then '-'
         else if c == ' ' then '-' else c) =
          (if c == ' ' ∨ c == '/' then '-' else c) := by
      intro c
      by_cases h1 : c = ' ' <;> by_cases h2 : c = '/' <;> simp [h1, h2]
    simp only [slugOf, slugSpecAmended, pyReplaceChar, pyLower, List.map_map,
      Function.comp]
    congr 1
    congr 1
    exact List.map_congr_left (fun c _ => by
      simp only [Function.comp_apply]
      exact hfun (pyLowerChar c))
  · decide

/-- C9 counterexample: the universal claim fails for a short link whose
query string mentions another platform: `https://youtu.be/abc?from=tiktok`
contains `youtu.be` and not `youtube`, the dispatcher accepts it, but
detection labels it `tiktok`, not `unknown`. -/
theorem c9_counterexample :
    pyIn "youtu.be" "https://youtu.be/abc?from=tiktok" = true ∧
    pyIn "youtube" "https://youtu.be/abc?from=tiktok" = false ∧
    handlerAccepts "https://youtu.be/abc?from=tiktok" = true ∧
    detectPlatform "https://youtu.be/abc?from=tiktok" = "tiktok" := by
  decide

/-- C9 (amended): for every URL containing `youtu.be` but none of
`tiktok`, `instagram`, `youtube`, the dispatcher's allow-list accepts
it and starts the pipeline, yet the structured-extraction stage labels
it `unknown`. -/
theorem c9_shortlink_mismatch (url : String)
    (h : pyIn "youtu.be" url = true)
    (h1 : pyIn "tiktok" url = false) (h2 : pyIn "instagram" url = false)
    (h3 : pyIn "youtube" url = false) :
    handlerAccepts url = true ∧ detectPlatform url = "unknown" := by
  constructor
  · have hl : pyIn "youtu.be" (pyLower url) = true :=
      pyIn_pyLower_of_pyIn "youtu.be" url (by decide) h
    simp [handlerAccepts, hl]
  · simp [detectPlatform, h1, h2, h3]

/-- C9 witness: the mismatch at the concrete short link
`https://youtu.be/dQw4w9WgXcQ`. -/
theorem c9_witness :
    handlerAccepts "https://youtu.be/dQw4w9WgXcQ" = true ∧
    detectPlatform "https://youtu.be/dQw4w9WgXcQ" = "unknown" :=
  c9_shortlink_mismatch "https://youtu.be/dQw4w9WgXcQ"
    (by decide) (by decide) (by decide) (by decide)

/-- C4 counterexample: for the allow-listed URL `https://tiktok.com/v`
and a pipeline subprocess exiting 1, the dispatcher prints the failure
message and the truncated error output but itself exits **0** —
`telegram_handler.py` lines 41-43 print and fall through without
`sys.exit(1)`. -/
theorem c4_counterexample :
    (handlerMain ["https://tiktok.com/v"]
      (fun _ => { returncode := 1, stdout := "", stderr := "boom" })).exitCode
      = 0 ∧
    (handlerMain ["https://tiktok.com/v"]
      (fun _ => { returncode := 1, stdout := "", stderr := "boom" })).prints =
      ["❌ Failed to process recipe", "boom"] := by
  decide

/-- C4 (amended): for every allow-listed URL, a non-zero subprocess
exit makes the dispatcher emit the failure message plus the last 500
characters of the runner's error output, but the dispatcher's own exit
status is 0 in both cases — it does **not** mirror the inner exit
status. -/
theorem c4_exit_mirroring (url : String) (sub : String → SubResult)
    (hacc : handlerAccepts url = true) :
    ((sub url).returncode ≠ 0 →
      handlerMain [url] sub =
        { exitCode := 0,
          prints := ["❌ Failed to process recipe",
                     pyLastN 500 (sub url).stderr] }) ∧
    ((sub url).returncode = 0 → (handlerMain [url] sub).exitCode = 0) := by
  constructor
  · intro hrc
    simp [handlerMain, hacc, hrc]
  · intro hrc
    simp [handlerMain, hacc, hrc]

/-- C4 witness: the dispatcher's behaviour at a concrete allow-listed
URL for a failing and for a succeeding subprocess. -/
theorem c4_witness :
    handlerMain ["https://instagram.com/reel/7"]
        (fun _ => { returncode := 2, stdout := "", stderr := "network timeout" })
      = { exitCode := 0,
          prints := ["❌ Failed to process recipe",
                     pyLastN 500 "network timeout"] } ∧
    (handlerMain ["https://instagram.com/reel/7"]
        (fun _ => { returncode := 0, stdout := "Recipe: X", stderr := "" })).exitCode
      = 0 :=
  ⟨(c4_exit_mirroring "https://instagram.com/reel/7" _ (by decide)).1
      (by decide),
   (c4_exit_mirroring "https://instagram.com/reel/7" _ (by decide)).2 rfl⟩

/-- C5 (confirmed): against a backend that always answers with a
non-`tunnel` status, a run that passes the duplicate and credential
pre-checks makes exactly 3 download attempts with a 5-second sleep
between consecutive attempts, writes no media file (no other events at
all), aborts before every later stage, and leaves the index
unchanged. -/
theorem c5_retry_bound (env : Env) (url : String)
    (hnd : ∀ i, ∃ s u f, env.dlResp i = DlResp.resp s u f ∧ s ≠ "tunnel")
    (hnodup : env.index.find?
      (fun e => rstripSlash e.source.url == rstripSlash (pyStrip url)) = none)
    (hkey : truthyStr (effGeminiKey env) = true) :
    (pipelineMain env [url]).outcome = Outcome.downloadFailed ∧
    (pipelineMain env [url]).events =
      [Ev.dlAttempt 0, Ev.sleep 5, Ev.dlAttempt 1, Ev.sleep 5, Ev.dlAttempt 2] ∧
    (pipelineMain env [url]).index = env.index := by
  obtain ⟨s0, u0, f0, h0, hs0⟩ := hnd 0
  obtain ⟨s1, u1, f1, h1, hs1⟩ := hnd 1
  obtain ⟨s2, u2, f2, h2, hs2⟩ := hnd 2
  have hb0 : (s0 != "tunnel") = true := by simp [hs0]
  have hb1 : (s1 != "tunnel") = true := by simp [hs1]
  have hb2 : (s2 != "tunnel") = true := by simp [hs2]
  have hdl : download_video env.dlResp = (none,
      [Ev.dlAttempt 0, Ev.sleep 5, Ev.dlAttempt 1, Ev.sleep 5, Ev.dlAttempt 2]) := by
    simp [download_video, dlGo, h0, h1, h2, hb0, hb1, hb2]
  refine ⟨?_, ?_, ?_⟩ <;> simp [pipelineMain, hnodup, hkey, hdl]

/-- C5 witness: the retry bound against a backend answering
`{"status": "error"}` on every attempt. -/
theorem c5_witness :
    (pipelineMain
      { sampleEnv with dlResp := fun _ => DlResp.resp "error" "" "" }
      ["https://tiktok.com/x"]).outcome = Outcome.downloadFailed ∧
    (pipelineMain
      { sampleEnv with dlResp := fun _ => DlResp.resp "error" "" "" }
      ["https://tiktok.com/x"]).events =
      [Ev.dlAttempt 0, Ev.sleep 5, Ev.dlAttempt 1, Ev.sleep 5, Ev.dlAttempt 2] ∧
    (pipelineMain
      { sampleEnv with dlResp := fun _ => DlResp.resp "error" "" "" }
      ["https://tiktok.com/x"]).index =
      ({ sampleEnv with dlResp := fun _ => DlResp.resp "error" "" "" } : Env).index :=
  c5_retry_bound
    { sampleEnv with dlResp := fun _ => DlResp.resp "error" "" "" }
    "https://tiktok.com/x"
    (fun _ => ⟨"error", "", "", rfl, by decide⟩) rfl rfl

/-- C10 (confirmed): the duplicate pre-check runs before the
language-model credential check. First part: with both credential
variables unset, a URL whose normalized form matches an index entry
still short-circuits with the `already exists` notice and process exit
status 0. Second part: the missing-credential exit can only happen when
no index entry matches the normalized URL. -/
theorem c10_precheck_order :
    (∀ (env : Env) (url : String),
      env.geminiApiKey = none → env.googleApiKey = none →
      (∃ e ∈ env.index,
        rstripSlash e.source.url = rstripSlash (pyStrip url)) →
      exitCode (pipelineMain env [url]).outcome = 0 ∧
      isAlreadyExists (pipelineMain env [url]).outcome = true) ∧
    (∀ (env : Env) (url : String) (e : IndexEntry),
      (pipelineMain env [url]).outcome = Outcome.missingKey →
      e ∈ env.index →
      rstripSlash e.source.url ≠ rstripSlash (pyStrip url)) := by
  constructor
  · intro env url _ _ h
    obtain ⟨⟨t, ht⟩, _, _⟩ := pipelineMain_dup env url h
    rw [ht]
    exact ⟨rfl, rfl⟩
  · intro env url e hmk hmem heq
    obtain ⟨⟨t, ht⟩, _, _⟩ := pipelineMain_dup env url ⟨e, hmem, heq⟩
    rw [hmk] at ht
    exact Outcome.noConfusion ht

/-- C10 witness: with no credentials set, a duplicate URL still exits 0
with the notice, and a missing-credential exit at a non-matching URL
implies the index entry does not match. -/
theorem c10_witness :
    (exitCode (pipelineMain { noKeyEnv with index := [sampleEntry] }
        ["https://tiktok.com/x/"]).outcome = 0 ∧
      isAlreadyExists (pipelineMain { noKeyEnv with index := [sampleEntry] }
        ["https://tiktok.com/x/"]).outcome = true) ∧
    rstripSlash otherEntry.source.url ≠
      rstripSlash (pyStrip "https://tiktok.com/x") :=
  ⟨c10_precheck_order.1 { noKeyEnv with index := [sampleEntry] }
      "https://tiktok.com/x/" rfl rfl ⟨sampleEntry, by decide, by decide⟩,
   c10_precheck_order.2 { noKeyEnv with index := [otherEntry] }
      "https://tiktok.com/x" otherEntry (by decide) (by decide)⟩

end Recipes

